import Mathlib

/-!
Shallow embedding of `app.py` (Roblox player-count dashboard): the fetch-with-retry
operation `fetch_and_save_data`, the append-only store of `PlayerCountEntry` rows,
and the two read endpoints `get_summary` and `get_historical_data`.

Time is modelled as seconds since the epoch (`Nat`), matching `datetime.utcnow()`
to second granularity.  Machine integers do not overflow in Python, so counts are
plain `Int`.  The upstream HTTP interaction of one tick is a function from attempt
index to the outcome of that attempt's `requests.get`.
-/

/-- One persisted row of the `player_count_entry` table (`class PlayerCountEntry`):
a timestamp (seconds since epoch, UTC) and the recorded player count. -/
structure PlayerCountEntry where
  timestamp : Nat
  player_count : Int
deriving Repr, DecidableEq

/-- The store: the table contents in insertion (primary-key) order. -/
abbrev Store := List PlayerCountEntry

/-- One record of the JSON body's `data` array; only the `playing` key is read
(`game_data.get('playing', 0)`), and it may be absent. -/
structure GameRecord where
  playing : Option Int
deriving Repr, DecidableEq

/-- The parsed JSON body: the `data` key may be absent (`data.get('data')`)
or hold a list of game records. -/
structure ApiBody where
  data : Option (List GameRecord)
deriving Repr, DecidableEq

/-- Outcome of one `requests.get` attempt: an HTTP response with a status code and
parsed body, or a network-level failure (timeout, connection error), which raises
`RequestException`. -/
inductive AttemptResult where
  | response (status : Nat) (body : ApiBody)
  | networkError
deriving Repr, DecidableEq

/-- How the retry loop inside the `try:` block ends: a `return` with a value
(`player_count` or `None`), falling off the `for` loop after `max_retries`
iterations, an `HTTPError` raised by `raise_for_status()`, or a
`RequestException` raised by `requests.get` itself. -/
inductive LoopExit where
  | ret (v : Option Int)
  | fall
  | raisedHTTP (status : Nat)
  | netErr
deriving Repr, DecidableEq

/-- State observed when the retry loop ends: the table contents, how many GET
attempts were made, the `time.sleep` durations in order, and the exit kind. -/
structure LoopOut where
  store : Store
  attempts : Nat
  sleeps : List Nat
  exit : LoopExit
deriving Repr, DecidableEq

def max_retries : Nat := 3

def initial_delay : Nat := 1

/-- `requests.Response.raise_for_status` raises `HTTPError` exactly for
4xx and 5xx status codes. -/
def raisesForStatus (status : Nat) : Bool :=
  decide (400 ≤ status ∧ status < 600)

/-- The body of `for attempt in range(max_retries):` in `fetch_and_save_data`.
`resp` gives the outcome of the GET on each attempt index, `now` is the
`datetime.utcnow()` value a new row would be stamped with, `fuel` is the number
of loop iterations left (`max_retries - attempt`). -/
def fetchGo (resp : Nat → AttemptResult) (now : Nat) (store : Store)
    (sleeps : List Nat) (attempt : Nat) : Nat → LoopOut
  | 0 => ⟨store, attempt, sleeps, .fall⟩
  | fuel + 1 =>
    match resp attempt with
    | .networkError => ⟨store, attempt + 1, sleeps, .netErr⟩
    | .response status body =>
      if status = 200 then
        match body.data with
        | some (g :: _) =>
          let player_count := g.playing.getD 0
          ⟨store ++ [⟨now, player_count⟩], attempt + 1, sleeps, .ret (some player_count)⟩
        | _ => ⟨store, attempt + 1, sleeps, .ret none⟩
      else if status = 429 then
        fetchGo resp now store (sleeps ++ [initial_delay * 2 ^ attempt]) (attempt + 1) fuel
      else if raisesForStatus status then
        ⟨store, attempt + 1, sleeps, .raisedHTTP status⟩
      else
        fetchGo resp now store sleeps (attempt + 1) fuel

/-- Result of one whole call of `fetch_and_save_data`: final table contents,
attempt count, sleeps, the Python return value (`player_count`, or `None`),
and any exception escaping the function (always `none`: the
`except RequestException` and `except Exception` clauses catch everything). -/
structure TickOut where
  store : Store
  attempts : Nat
  sleeps : List Nat
  returned : Option Int
  uncaught : Option LoopExit
deriving Repr, DecidableEq

/-- The two `except` handlers around the loop.  `HTTPError` is a subclass of
`RequestException`, so both the `raisedHTTP` and `netErr` exits are caught
(logged) and the function returns `None`; falling off the loop also returns
`None` implicitly. -/
def handleTick : LoopOut → TickOut
  | ⟨store, attempts, sleeps, .ret v⟩ => ⟨store, attempts, sleeps, v, none⟩
  | ⟨store, attempts, sleeps, .fall⟩ => ⟨store, attempts, sleeps, none, none⟩
  | ⟨store, attempts, sleeps, .raisedHTTP _⟩ => ⟨store, attempts, sleeps, none, none⟩
  | ⟨store, attempts, sleeps, .netErr⟩ => ⟨store, attempts, sleeps, none, none⟩

/-- `fetch_and_save_data()`: run the retry loop, then apply the `except`
handlers. -/
def fetch_and_save_data (resp : Nat → AttemptResult) (now : Nat) (store : Store) : TickOut :=
  handleTick (fetchGo resp now store [] 0 max_retries)

/-- A sequence of scheduler ticks: each runs `fetch_and_save_data` with its own
upstream behaviour and write timestamp, threading the store through. -/
def runTicks : List ((Nat → AttemptResult) × Nat) → Store → Store
  | [], s => s
  | (resp, now) :: rest, s => runTicks rest (fetch_and_save_data resp now s).store

/-- Ordering used by the SQL `ORDER BY timestamp` clauses. -/
def byTime (a b : PlayerCountEntry) : Prop := a.timestamp ≤ b.timestamp

instance : DecidableRel byTime := fun a b => inferInstanceAs (Decidable (a.timestamp ≤ b.timestamp))

instance : IsTotal PlayerCountEntry byTime := ⟨fun a b => Nat.le_total a.timestamp b.timestamp⟩

instance : IsTrans PlayerCountEntry byTime := ⟨fun _ _ _ h h' => Nat.le_trans h h'⟩

/-- `PlayerCountEntry.query.order_by(timestamp.desc()).first()`: the row with the
greatest timestamp, modelled as the last element after a stable ascending sort. -/
def latest_entry (store : Store) : Option PlayerCountEntry :=
  (List.insertionSort byTime store).getLast?

/-- SQL `MAX(column)` over a bag of values: `NULL` (here `none`) on no rows. -/
def sqlMax : List Int → Option Int
  | [] => none
  | v :: vs =>
    match sqlMax vs with
    | none => some v
    | some m => some (max v m)

/-- Python's `x or 0` applied to the `scalar()` result: `None` and `0` are falsy. -/
def pyOrZero : Option Int → Int
  | none => 0
  | some v => if v = 0 then 0 else v

def window_seconds : Nat := 24 * 3600

/-- The rows selected by `filter(PlayerCountEntry.timestamp >= utcnow() - 24h)`,
shared by both read endpoints. -/
def windowEntries (now : Nat) (store : Store) : Store :=
  store.filter (fun e => decide (now - window_seconds ≤ e.timestamp))

def GAME_NAME : String := "Adopt Me! (ตัวอย่าง)"

/-- The JSON object returned by `/api/summary`. -/
structure Summary where
  game_name : String
  current_players : Int
  max_players_24h : Int
deriving Repr, DecidableEq

/-- `get_summary()`: `current_players` from the latest row (0 when the table is
empty), `max_players_24h` = `MAX(player_count)` over rows with
`timestamp >= utcnow() - 24h`, with Python's `or 0` applied to the scalar. -/
def get_summary (now : Nat) (store : Store) : Summary :=
  let current_players : Int :=
    match latest_entry store with
    | some e => e.player_count
    | none => 0
  let max_entry_24h :=
    pyOrZero (sqlMax ((windowEntries now store).map (fun e => e.player_count)))
  ⟨GAME_NAME, current_players, max_entry_24h⟩

/-- Zero-padded two-digit decimal rendering, as `strftime` does for `%H`/`%M`. -/
def pad2 (n : Nat) : String :=
  if n < 10 then "0" ++ toString n else toString n

/-- `timestamp.strftime('%H:%M')` for a seconds-since-epoch instant. -/
def fmtHM (t : Nat) : String :=
  pad2 (t / 3600 % 24) ++ ":" ++ pad2 (t / 60 % 60)

/-- The JSON object returned by `/api/analytics/historical`. -/
structure Historical where
  labels : List String
  data : List Int
deriving Repr, DecidableEq

/-- `get_historical_data()`: rows with `timestamp >= utcnow() - 24h` ordered by
timestamp ascending; labels are `%H:%M` strings, data the counts, in parallel. -/
def get_historical_data (now : Nat) (store : Store) : Historical :=
  let entries := List.insertionSort byTime (windowEntries now store)
  ⟨entries.map (fun e => fmtHM e.timestamp), entries.map (fun e => e.player_count)⟩

/-! ### Helper lemmas about the embedding -/

theorem fetchGo_zero (resp : Nat → AttemptResult) (now : Nat) (store : Store)
    (sleeps : List Nat) (attempt : Nat) :
    fetchGo resp now store sleeps attempt 0 = ⟨store, attempt, sleeps, .fall⟩ := rfl

theorem fetchGo_succ (resp : Nat → AttemptResult) (now : Nat) (store : Store)
    (sleeps : List Nat) (attempt fuel : Nat) :
    fetchGo resp now store sleeps attempt (fuel + 1) =
      match resp attempt with
      | .networkError => ⟨store, attempt + 1, sleeps, .netErr⟩
      | .response status body =>
        if status = 200 then
          match body.data with
          | some (g :: _) =>
            ⟨store ++ [⟨now, g.playing.getD 0⟩], attempt + 1, sleeps,
              .ret (some (g.playing.getD 0))⟩
          | _ => ⟨store, attempt + 1, sleeps, .ret none⟩
        else if status = 429 then
          fetchGo resp now store (sleeps ++ [initial_delay * 2 ^ attempt]) (attempt + 1) fuel
        else if raisesForStatus status then
          ⟨store, attempt + 1, sleeps, .raisedHTTP status⟩
        else
          fetchGo resp now store sleeps (attempt + 1) fuel := rfl

theorem handleTick_store (o : LoopOut) : (handleTick o).store = o.store := by
  rcases o with ⟨s, a, sl, e⟩
  cases e <;> rfl

theorem sqlMax_cons_ne_none (v : Int) (vs : List Int) : sqlMax (v :: vs) ≠ none := by
  unfold sqlMax
  cases sqlMax vs <;> simp

theorem sqlMax_mem_le : ∀ (l : List Int) (m : Int), sqlMax l = some m →
    m ∈ l ∧ ∀ x ∈ l, x ≤ m := by
  intro l
  induction l with
  | nil => intro m h; simp [sqlMax] at h
  | cons v vs ih =>
    intro m h
    unfold sqlMax at h
    cases hvs : sqlMax vs with
    | none =>
      rw [hvs] at h
      injection h with h'
      subst h'
      refine ⟨List.mem_cons_self _ _, ?_⟩
      intro x hx
      rcases List.mem_cons.1 hx with rfl | hx'
      · exact le_refl _
      · cases vs with
        | nil => simp at hx'
        | cons w ws => exact absurd hvs (sqlMax_cons_ne_none w ws)
    | some m' =>
      rw [hvs] at h
      injection h with h'
      subst h'
      obtain ⟨hmem, hle⟩ := ih m' hvs
      constructor
      · rcases le_total v m' with hv | hv
        · exact List.mem_cons_of_mem _ (by simpa [max_eq_right hv] using hmem)
        · simp [max_eq_left hv]
      · intro x hx
        rcases List.mem_cons.1 hx with rfl | hx'
        · exact le_max_left _ _
        · exact le_trans (hle x hx') (le_max_right _ _)

theorem sqlMax_of_ne_nil : ∀ (l : List Int), l ≠ [] → ∃ m, sqlMax l = some m := by
  intro l h
  cases l with
  | nil => exact absurd rfl h
  | cons v vs =>
    unfold sqlMax
    cases sqlMax vs with
    | none => exact ⟨v, rfl⟩
    | some m => exact ⟨max v m, rfl⟩

theorem pyOrZero_some (m : Int) : pyOrZero (some m) = m := by
  unfold pyOrZero
  by_cases h : m = 0 <;> simp [h]

theorem pairwise_getLast?_max : ∀ (l : Store), l.Pairwise byTime →
    ∀ e, l.getLast? = some e → ∀ x ∈ l, x.timestamp ≤ e.timestamp := by
  intro l
  induction l with
  | nil => simp
  | cons a t ih =>
    intro hp e hl x hx
    cases t with
    | nil =>
      rw [List.getLast?_singleton] at hl
      injection hl with hl
      subst hl
      rcases List.mem_singleton.1 hx with rfl
      exact le_refl _
    | cons b t' =>
      rw [List.getLast?_cons_cons] at hl
      rcases List.mem_cons.1 hx with rfl | hx'
      · have he : e ∈ b :: t' := List.mem_of_mem_getLast? hl
        exact (List.pairwise_cons.1 hp).1 e he
      · exact ih (List.pairwise_cons.1 hp).2 e hl x hx'

theorem latest_entry_spec (store : Store) (h : store ≠ []) :
    ∃ e, latest_entry store = some e ∧ e ∈ store ∧
      ∀ x ∈ store, x.timestamp ≤ e.timestamp := by
  have hne : List.insertionSort byTime store ≠ [] := by
    intro h0
    apply h
    have hl := List.length_insertionSort byTime store
    rw [h0] at hl
    exact List.length_eq_zero.1 hl.symm
  obtain ⟨e, he⟩ := Option.isSome_iff_exists.1 (List.getLast?_isSome.2 hne)
  refine ⟨e, he, (List.mem_insertionSort byTime).1 (List.mem_of_mem_getLast? he), ?_⟩
  intro x hx
  exact pairwise_getLast?_max _ (List.sorted_insertionSort byTime store) e he x
    ((List.mem_insertionSort byTime).2 hx)

/-! ### Concrete upstream behaviours used as test inputs -/

/-- A 200 response whose `data` array holds one record without a `playing` key. -/
def respNoPlaying : Nat → AttemptResult := fun _ => .response 200 ⟨some [⟨none⟩]⟩

/-- Rate-limited on every attempt. -/
def respAll429 : Nat → AttemptResult := fun _ => .response 429 ⟨none⟩

/-- HTTP 204 (non-200, non-429, not a 4xx/5xx error) on every attempt. -/
def respAll204 : Nat → AttemptResult := fun _ => .response 204 ⟨none⟩

/-- A 200 response whose first record carries a negative `playing` value. -/
def respNegPlaying : Nat → AttemptResult := fun _ => .response 200 ⟨some [⟨some (-1)⟩]⟩

/-! ### Claim theorems -/

/-- C1 counterexample.  The claim says a 200 response whose first record lacks
the `playing` field leads to no sample and an unmutated Store.  In the code
`game_data.get('playing', 0)` defaults the missing field to 0, so on the 200
response with body `{"data": [{}]}` (first record lacks `playing`) starting
from the empty store, a row with `player_count = 0` IS persisted and the value
0 is returned: the claim is false at this input. -/
theorem C1_counterexample :
    (fetch_and_save_data respNoPlaying 1000 []).store = [⟨1000, 0⟩] ∧
    (fetch_and_save_data respNoPlaying 1000 []).returned = some 0 :=
  ⟨rfl, rfl⟩

/-- C1 amended: for every HTTP 200 first response whose body's `data` collection
is empty or absent, `fetch_and_save_data` returns no sample and the Store is
not mutated (one attempt, no sleeps, nothing raised).  (The "first record lacks
`playing`" half of the original claim is dropped: there the code persists a row
with `player_count = 0`.) -/
theorem C1_empty_data_no_persist (resp : Nat → AttemptResult) (now : Nat) (store : Store)
    (body : ApiBody) (h0 : resp 0 = .response 200 body)
    (hempty : body.data = none ∨ body.data = some []) :
    fetch_and_save_data resp now store = ⟨store, 1, [], none, none⟩ := by
  have h3 : max_retries = 2 + 1 := rfl
  unfold fetch_and_save_data
  rw [h3, fetchGo_succ, h0]
  rcases hempty with h | h <;> simp [h, handleTick]

/-- C1 amended witness: instantiated at a 200 response with `data = []`. -/
theorem C1_empty_data_no_persist_witness :
    fetch_and_save_data (fun _ => .response 200 ⟨some []⟩) 42 [⟨1, 5⟩] =
      ⟨[⟨1, 5⟩], 1, [], none, none⟩ :=
  C1_empty_data_no_persist (fun _ => .response 200 ⟨some []⟩) 42 [⟨1, 5⟩]
    ⟨some []⟩ rfl (Or.inr rfl)

/-- C2 counterexample.  The claim says that on three consecutive 429 responses
the code sleeps only 1s and 2s.  The loop body sleeps after every 429,
including the third, so the sleep sequence is `[1, 2, 4]`, not `[1, 2]`: the
claim is false on the run where every attempt is rate-limited. -/
theorem C2_counterexample :
    (fetch_and_save_data respAll429 0 []).sleeps = [1, 2, 4] ∧
    (fetch_and_save_data respAll429 0 []).sleeps ≠ [1, 2] := by
  decide

/-- C2 amended: on three consecutive HTTP 429 responses, `fetch_and_save_data`
makes exactly 3 GET attempts, sleeps the backoff delays 1s, 2s and 4s (the 4s
sleep occurs after the third rate-limited attempt, just before the loop
exhausts), and ends without a sample, without mutating the store and without
raising. -/
theorem C2_three_rate_limits (resp : Nat → AttemptResult) (now : Nat) (store : Store)
    (h : ∀ i, i < 3 → ∃ b, resp i = AttemptResult.response 429 b) :
    fetch_and_save_data resp now store = ⟨store, 3, [1, 2, 4], none, none⟩ := by
  obtain ⟨b0, h0⟩ := h 0 (by omega)
  obtain ⟨b1, h1⟩ := h 1 (by omega)
  obtain ⟨b2, h2⟩ := h 2 (by omega)
  have hm : max_retries = 2 + 1 := rfl
  have hf2 : (2 : Nat) = 1 + 1 := rfl
  have hf1 : (1 : Nat) = 0 + 1 := rfl
  unfold fetch_and_save_data
  rw [hm, fetchGo_succ, h0]
  norm_num
  rw [hf2, fetchGo_succ, h1]
  norm_num
  rw [hf1, fetchGo_succ, h2]
  norm_num [fetchGo_zero, handleTick, initial_delay]

/-- C2 amended witness: instantiated at the all-429 upstream. -/
theorem C2_three_rate_limits_witness :
    fetch_and_save_data respAll429 17 [⟨1, 5⟩] = ⟨[⟨1, 5⟩], 3, [1, 2, 4], none, none⟩ :=
  C2_three_rate_limits respAll429 17 [⟨1, 5⟩] (fun _ _ => ⟨⟨none⟩, rfl⟩)

/-- C7: on the empty store, `get_summary` returns `current_players = 0` and
`max_players_24h = 0`, at every query time. -/
theorem C7_summary_empty_store (now : Nat) :
    (get_summary now []).current_players = 0 ∧ (get_summary now []).max_players_24h = 0 :=
  ⟨rfl, rfl⟩

/-- C8 counterexample.  The claim says any non-200, non-429 status ends the tick
with no further attempt.  `raise_for_status()` raises only for 4xx/5xx, so on
HTTP 204 the loop just continues: with 204 on every attempt the code makes 3
attempts, not 1 — the claim is false at status 204. -/
theorem C8_counterexample :
    (fetch_and_save_data respAll204 0 []).attempts = 3 ∧
    (fetch_and_save_data respAll204 0 []).attempts ≠ 1 := by
  decide

/-- C8 amended: when the first attempt receives a 4xx or 5xx status other than
429 (e.g. 500), `raise_for_status()` raises `HTTPError`, so `fetch_and_save_data`
makes no further attempt, does not sleep, does not mutate the store, and the
exception is caught by its own `except RequestException` handler, so nothing
propagates to the caller (the scheduler is never stopped by it). -/
theorem C8_error_status_single_attempt (resp : Nat → AttemptResult) (now : Nat)
    (store : Store) (status : Nat) (body : ApiBody)
    (h0 : resp 0 = .response status body)
    (h4 : 400 ≤ status) (h6 : status < 600) (h429 : status ≠ 429) :
    fetch_and_save_data resp now store = ⟨store, 1, [], none, none⟩ := by
  have h200 : ¬(status = 200) := by omega
  have hm : max_retries = 2 + 1 := rfl
  unfold fetch_and_save_data
  rw [hm, fetchGo_succ, h0]
  simp [h200, h429, raisesForStatus, h4, h6, handleTick]

/-- C8 amended witness: instantiated at a single 500 response. -/
theorem C8_error_status_single_attempt_witness :
    fetch_and_save_data (fun _ => .response 500 ⟨none⟩) 3 [⟨1, 5⟩] =
      ⟨[⟨1, 5⟩], 1, [], none, none⟩ :=
  C8_error_status_single_attempt (fun _ => .response 500 ⟨none⟩) 3 [⟨1, 5⟩] 500 ⟨none⟩
    rfl (by omega) (by omega) (by omega)

/-- An upstream behaviour whose `playing` values, whenever present, are all
non-negative. -/
def respAllNonneg (resp : Nat → AttemptResult) : Prop :=
  ∀ i status body, resp i = AttemptResult.response status body →
    ∀ l, body.data = some l → ∀ g ∈ l, ∀ v, g.playing = some v → 0 ≤ v

theorem fetchGo_store_nonneg (resp : Nat → AttemptResult) (now : Nat) :
    ∀ (fuel : Nat) (store : Store) (sleeps : List Nat) (attempt : Nat),
      respAllNonneg resp → (∀ e ∈ store, 0 ≤ e.player_count) →
      ∀ e ∈ (fetchGo resp now store sleeps attempt fuel).store, 0 ≤ e.player_count := by
  intro fuel
  induction fuel with
  | zero =>
    intro store sleeps attempt _ hs
    rw [fetchGo_zero]
    exact hs
  | succ fuel ih =>
    intro store sleeps attempt hresp hs
    rw [fetchGo_succ]
    cases hr : resp attempt with
    | networkError => exact hs
    | response status body =>
      by_cases h200 : status = 200
      · simp only [h200, if_true]
        cases hd : body.data with
        | none => exact hs
        | some l =>
          cases l with
          | nil => exact hs
          | cons g gs =>
            intro e he
            rcases List.mem_append.1 he with he' | he'
            · exact hs e he'
            · rcases List.mem_singleton.1 he' with rfl
              show (0 : Int) ≤ g.playing.getD 0
              cases hg : g.playing with
              | none => simp
              | some v =>
                simp only [Option.getD_some]
                exact hresp attempt status body hr (g :: gs) hd g
                  (List.mem_cons_self _ _) v hg
      · simp only [h200, if_false]
        by_cases h429 : status = 429
        · simp only [h429, if_true]
          exact ih store (sleeps ++ [initial_delay * 2 ^ attempt]) (attempt + 1) hresp hs
        · simp only [h429, if_false]
          by_cases hrs : raisesForStatus status
          · simp only [hrs, if_true]
            exact hs
          · simp only [hrs, if_false]
            exact ih store sleeps (attempt + 1) hresp hs

theorem runTicks_nonneg : ∀ (runs : List ((Nat → AttemptResult) × Nat)) (store : Store),
    (∀ e ∈ store, 0 ≤ e.player_count) → (∀ r ∈ runs, respAllNonneg r.1) →
    ∀ e ∈ runTicks runs store, 0 ≤ e.player_count := by
  intro runs
  induction runs with
  | nil =>
    intro store hs _
    exact hs
  | cons run rest ih =>
    intro store hs hr
    rcases run with ⟨resp, now⟩
    show ∀ e ∈ runTicks rest (fetch_and_save_data resp now store).store, 0 ≤ e.player_count
    apply ih
    · rw [fetch_and_save_data, handleTick_store]
      exact fetchGo_store_nonneg resp now max_retries store [] 0
        (hr ⟨resp, now⟩ (List.mem_cons_self _ _)) hs
    · intro r hrr
      exact hr r (List.mem_cons_of_mem _ hrr)

/-- C4 counterexample.  The claim quantifies over arbitrary upstream responses,
but nothing in the code checks the sign of the `playing` value: a single run
against a 200 response with body `{"data": [{"playing": -1}]}` persists a row
with `player_count = -1 < 0`, so the invariant as stated is false. -/
theorem C4_counterexample :
    runTicks [(respNegPlaying, 7)] [] = [⟨7, -1⟩] ∧
    ∃ e ∈ runTicks [(respNegPlaying, 7)] [], e.player_count < 0 := by
  refine ⟨rfl, ⟨7, -1⟩, ?_, ?_⟩ <;> decide

/-- C4 amended: every store reachable by a sequence of `fetch_and_save_data`
runs from the empty store has only non-negative `player_count` values, provided
every `playing` value the upstream ever supplies is non-negative (a missing
`playing` field is stored as the default 0, which is also non-negative). -/
theorem C4_reachable_nonneg (runs : List ((Nat → AttemptResult) × Nat))
    (h : ∀ r ∈ runs, respAllNonneg r.1) :
    ∀ e ∈ runTicks runs [], 0 ≤ e.player_count :=
  runTicks_nonneg runs [] (by intro e he; simp at he) h

/-- C4 amended witness: one run against a 200 response with `playing = 3`
reaches the store `[⟨5, 3⟩]`, whose single entry is non-negative. -/
theorem C4_reachable_nonneg_witness :
    (0 : Int) ≤ (PlayerCountEntry.mk 5 3).player_count :=
  C4_reachable_nonneg [(fun _ => .response 200 ⟨some [⟨some 3⟩]⟩, 5)]
    (by
      intro r hr
      rcases List.mem_singleton.1 hr with rfl
      intro i status body hb
      injection hb with hstatus hbody
      subst hbody
      intro l hl
      injection hl with hl
      subst hl
      intro g hg v hv
      rcases List.mem_singleton.1 hg with rfl
      injection hv with hv
      subst hv
      decide)
    ⟨5, 3⟩ (by decide)

/-- C5: the 24-hour maximum reported by `get_summary` is 0 when no row has
`timestamp ≥ now − 24h`, and otherwise is one of the qualifying rows'
`player_count` values and an upper bound for all of them — i.e. exactly the
maximum over the window. -/
theorem C5_max_in_window (now : Nat) (store : Store) :
    (windowEntries now store = [] → (get_summary now store).max_players_24h = 0) ∧
    (windowEntries now store ≠ [] →
      (get_summary now store).max_players_24h ∈
        (windowEntries now store).map (fun e => e.player_count) ∧
      ∀ e ∈ windowEntries now store,
        e.player_count ≤ (get_summary now store).max_players_24h) := by
  constructor
  · intro hq
    show pyOrZero (sqlMax ((windowEntries now store).map (fun e => e.player_count))) = 0
    rw [hq]
    rfl
  · intro hq
    have hm : (windowEntries now store).map (fun e => e.player_count) ≠ [] := by
      intro h0
      exact hq (List.map_eq_nil_iff.1 h0)
    obtain ⟨m, hsm⟩ := sqlMax_of_ne_nil _ hm
    obtain ⟨hmem, hle⟩ := sqlMax_mem_le _ m hsm
    have hval : (get_summary now store).max_players_24h = m := by
      show pyOrZero (sqlMax ((windowEntries now store).map (fun e => e.player_count))) = m
      rw [hsm, pyOrZero_some]
    rw [hval]
    refine ⟨hmem, ?_⟩
    intro e he
    exact hle e.player_count (List.mem_map_of_mem _ he)

/-- C5 witness: on the empty store nothing qualifies and the reported maximum
is 0. -/
theorem C5_max_in_window_witness : (get_summary 10 []).max_players_24h = 0 :=
  (C5_max_in_window 10 []).1 rfl

/-- C6: `get_historical_data` returns labels and data of equal length, read off
one list of qualifying rows that is a permutation of the window selection and
is ascending by timestamp; `labels[i]` is the i-th row's timestamp rendered as
zero-padded 24-hour `HH:MM` (`fmtHM`) and `data[i]` is its `player_count`. -/
theorem C6_historical_parallel (now : Nat) (store : Store) :
    ∃ q : Store,
      q.Perm (windowEntries now store) ∧
      q.Pairwise byTime ∧
      (get_historical_data now store).labels = q.map (fun e => fmtHM e.timestamp) ∧
      (get_historical_data now store).data = q.map (fun e => e.player_count) ∧
      (get_historical_data now store).labels.length =
        (get_historical_data now store).data.length := by
  refine ⟨List.insertionSort byTime (windowEntries now store),
    List.perm_insertionSort byTime _, List.sorted_insertionSort byTime _, rfl, rfl, ?_⟩
  show (List.map _ _).length = (List.map _ _).length
  rw [List.length_map, List.length_map]

/-- C9: on a non-empty store, the latest-entry query used by `get_summary`
returns a stored row whose timestamp is maximal among all stored rows, and
`current_players` equals that row's `player_count`. -/
theorem C9_latest_is_max (now : Nat) (store : Store) (h : store ≠ []) :
    ∃ e, latest_entry store = some e ∧ e ∈ store ∧
      (∀ x ∈ store, x.timestamp ≤ e.timestamp) ∧
      (get_summary now store).current_players = e.player_count := by
  obtain ⟨e, he, hmem, hmax⟩ := latest_entry_spec store h
  refine ⟨e, he, hmem, hmax, ?_⟩
  show (match latest_entry store with
        | some e => e.player_count
        | none => 0) = e.player_count
  rw [he]

/-- C9 witness: instantiated on a two-row store whose later row has count 9. -/
theorem C9_latest_is_max_witness :
    ∃ e, latest_entry [⟨1, 4⟩, ⟨2, 9⟩] = some e ∧ e ∈ ([⟨1, 4⟩, ⟨2, 9⟩] : Store) ∧
      (∀ x ∈ ([⟨1, 4⟩, ⟨2, 9⟩] : Store), x.timestamp ≤ e.timestamp) ∧
      (get_summary 5 [⟨1, 4⟩, ⟨2, 9⟩]).current_players = e.player_count :=
  C9_latest_is_max 5 [⟨1, 4⟩, ⟨2, 9⟩] (by decide)

/-- C10: on a non-empty store all of whose rows are older than `now − 24h`,
`get_summary` still reports the most recent row's `player_count` as
`current_players` (the latest-row query applies no time window) while
`max_players_24h` is 0, so the two fields of one summary can disagree about
whether data exists. -/
theorem C10_stale_store_summary (now : Nat) (store : Store) (hne : store ≠ [])
    (hold : ∀ e ∈ store, e.timestamp < now - window_seconds) :
    ∃ e, latest_entry store = some e ∧ e ∈ store ∧
      (∀ x ∈ store, x.timestamp ≤ e.timestamp) ∧
      (get_summary now store).current_players = e.player_count ∧
      (get_summary now store).max_players_24h = 0 := by
  obtain ⟨e, he, hmem, hmax⟩ := latest_entry_spec store hne
  have hq : windowEntries now store = [] := by
    apply List.filter_eq_nil_iff.2
    intro a ha
    simp only [decide_eq_true_eq]
    exact Nat.not_le.2 (hold a ha)
  refine ⟨e, he, hmem, hmax, ?_, ?_⟩
  · show (match latest_entry store with
          | some e => e.player_count
          | none => 0) = e.player_count
    rw [he]
  · show pyOrZero (sqlMax ((windowEntries now store).map (fun e => e.player_count))) = 0
    rw [hq]
    rfl

/-- C10 witness: a single row at timestamp 0, queried at `now = 100000`
(cutoff 13600): `current_players = 5`, `max_players_24h = 0`. -/
theorem C10_stale_store_summary_witness :
    ∃ e, latest_entry [⟨0, 5⟩] = some e ∧ e ∈ ([⟨0, 5⟩] : Store) ∧
      (∀ x ∈ ([⟨0, 5⟩] : Store), x.timestamp ≤ e.timestamp) ∧
      (get_summary 100000 [⟨0, 5⟩]).current_players = e.player_count ∧
      (get_summary 100000 [⟨0, 5⟩]).max_players_24h = 0 :=
  C10_stale_store_summary 100000 [⟨0, 5⟩] (by decide) (by decide)

/-- The store of the end-to-end scenario: samples `(t0, 50)`, `(t0+1h, 70)`,
`(t0+25h, 90)` (times in seconds). -/
def storeC3 (t0 : Nat) : Store := [⟨t0, 50⟩, ⟨t0 + 3600, 70⟩, ⟨t0 + 90000, 90⟩]

/-- C3 counterexample.  Querying at `t0 + 26h` puts the window cutoff at
`t0 + 2h`, so the `t0 + 1h` sample is OUTSIDE the 24-hour window: with `t0 = 0`,
`get_historical_data` returns 1 entry (the `t0+25h` sample), not the 2 entries
the claim asserts. -/
theorem C3_counterexample :
    (get_historical_data (26 * 3600) (storeC3 0)).labels.length = 1 ∧
    (get_historical_data (26 * 3600) (storeC3 0)).data = [90] ∧
    (get_historical_data (26 * 3600) (storeC3 0)).labels.length ≠ 2 := by
  decide

/-- C3 amended: for the store with samples `(t0, 50)`, `(t0+1h, 70)`,
`(t0+25h, 90)`, querying at `t0 + 26h` yields `current_players = 90` and
`max_players_24h = 90`, and `get_historical_data` returns exactly 1 entry
(the `t0+25h` sample; only it falls in the window, whose cutoff is `t0+2h`). -/
theorem C3_end_to_end (t0 : Nat) :
    get_summary (t0 + 26 * 3600) (storeC3 t0) = ⟨GAME_NAME, 90, 90⟩ ∧
    get_historical_data (t0 + 26 * 3600) (storeC3 t0) =
      ⟨[fmtHM (t0 + 90000)], [90]⟩ := by
  have hcut : t0 + 26 * 3600 - window_seconds = t0 + 7200 := by
    simp only [window_seconds]
    omega
  have hw : windowEntries (t0 + 26 * 3600) (storeC3 t0) = [⟨t0 + 90000, 90⟩] := by
    unfold windowEntries storeC3
    rw [List.filter_cons, List.filter_cons, List.filter_cons, List.filter_nil, hcut]
    rw [if_neg (by simp), if_neg (by simp), if_pos (by simp)]
  have hsorted : List.Sorted byTime (storeC3 t0) := by
    unfold storeC3
    apply List.Pairwise.cons
    · intro b hb
      rcases List.mem_cons.1 hb with rfl | hb'
      · show t0 ≤ t0 + 3600
        omega
      · rcases List.mem_singleton.1 hb' with rfl
        show t0 ≤ t0 + 90000
        omega
    · apply List.Pairwise.cons
      · intro b hb
        rcases List.mem_singleton.1 hb with rfl
        show t0 + 3600 ≤ t0 + 90000
        omega
      · exact List.pairwise_singleton _ _
  have hlatest : latest_entry (storeC3 t0) = some ⟨t0 + 90000, 90⟩ := by
    unfold latest_entry
    rw [hsorted.insertionSort_eq]
    rfl
  constructor
  · show Summary.mk GAME_NAME
      (match latest_entry (storeC3 t0) with
       | some e => e.player_count
       | none => 0)
      (pyOrZero (sqlMax ((windowEntries (t0 + 26 * 3600) (storeC3 t0)).map
        (fun e => e.player_count)))) = Summary.mk GAME_NAME 90 90
    rw [hlatest, hw]
    rfl
  · show Historical.mk
      ((List.insertionSort byTime (windowEntries (t0 + 26 * 3600) (storeC3 t0))).map
        (fun e => fmtHM e.timestamp))
      ((List.insertionSort byTime (windowEntries (t0 + 26 * 3600) (storeC3 t0))).map
        (fun e => e.player_count)) = Historical.mk [fmtHM (t0 + 90000)] [90]
    rw [hw]
    rfl
